import Mathlib

/-!
Shallow embedding of the apns2 push-notification client core
(src/lib/apns.ts and src/lib/http2-client.ts) and proofs about its
response classification, batch sending, token management and
HTTP/2 client lifecycle.
-/

namespace Apns

/-- A JavaScript runtime value as far as the embedded code inspects one:
`undefined`, a string, or a number (modelled as a rational, which covers
every numeric value the code produces, including the fractional results
of `/`). -/
inductive JSVal where
  | undef : JSVal
  | str : String → JSVal
  | num : ℚ → JSVal
deriving DecidableEq, Repr

/-- JavaScript strict equality on the modelled values: values of
different runtime types are never strictly equal, values of the same
type compare by value. -/
def jsStrictEq (a b : JSVal) : Bool := decide (a = b)

/-- JavaScript truthiness of a modelled value: `undefined`, the empty
string and the number 0 are falsy, everything else is truthy. -/
def JSVal.truthy : JSVal → Bool
  | JSVal.undef => false
  | JSVal.str s => decide (s ≠ "")
  | JSVal.num q => decide (q ≠ 0)

/-- The `:status` response-header field as the http2 layer may deliver
it to `HTTP2Client.request`: absent, a single value, or an array of
values. -/
inductive HeaderStatus where
  | absent : HeaderStatus
  | val : JSVal → HeaderStatus
  | arr : List JSVal → HeaderStatus
deriving DecidableEq, Repr

/-- src/lib/http2-client.ts line 156: the resolved statusCode is
`Array.isArray(headerStatus) ? headerStatus[0] : headerStatus || '400'`.
An absent header is falsy, so it resolves to the string `'400'`; an
array resolves to its first element (undefined when empty); otherwise a
falsy value also resolves to the string `'400'`. -/
def resolveStatusCode : HeaderStatus → JSVal
  | HeaderStatus.absent => JSVal.str "400"
  | HeaderStatus.arr vs => vs.headD JSVal.undef
  | HeaderStatus.val v => if v.truthy then v else JSVal.str "400"

/-- The response body as far as `_handleServerResponse` inspects it via
`JSON.parse`: either it parses to an object with a string `reason`
field, or parsing fails. -/
inductive Body where
  | json : String → Body
  | malformed : Body
deriving DecidableEq, Repr

/-- The value `HTTP2Client.request` resolves with (headers are carried
too in the source but never inspected by the dispatch pipeline, so they
are omitted here). -/
structure ServerResponse where
  statusCode : JSVal
  body : Body
deriving DecidableEq, Repr

namespace Errors

/-- Modelled from the spec: the designated unknown-error sentinel from
the error-reason constants catalog (src/lib/errors.ts is not part of
the provided core source); its role in the proofs is that of a
distinguished string key. -/
def unknownError : String := "UnknownError"

/-- Modelled from the spec: the generic error event key from the
error-reason constants catalog (src/lib/errors.ts is not part of the
provided core source). -/
def error : String := "error"

/-- Modelled from the spec: the expired-credential reason from the
error-reason constants catalog (src/lib/errors.ts is not part of the
provided core source). -/
def expiredProviderToken : String := "ExpiredProviderToken"

/-- Modelled from the spec: the invalid-signing-key event key from the
error-reason constants catalog (src/lib/errors.ts is not part of the
provided core source). -/
def invalidSigningKey : String := "InvalidSigningKey"

end Errors

/-- Modelled from the spec: the optional expiration a Notification
exposes (notification.ts, the payload collaborator, is outside the
core source) — either a Date (carrying epoch milliseconds, the value
`getTime()` returns) or a plain number. -/
inductive ExpirationVal where
  | date : ℤ → ExpirationVal
  | num : ℚ → ExpirationVal
deriving DecidableEq, Repr

/-- Modelled from the spec: the read-only interface any Notification
exposes to the core — device identifier, push type, priority, topic,
optional expiration, optional collapse id, and a JSON-serializable
payload body (kept abstract as the string `JSON.stringify` produces). -/
structure Notification where
  deviceToken : String
  pushType : String
  priority : ℕ
  topic : Option String
  expiration : Option ExpirationVal
  collapseId : Option String
  payload : String
deriving DecidableEq, Repr

/-- The success outcome of `_handleServerResponse`: the original
notification and device token (src/lib/apns.ts lines 238-241). -/
structure SendSuccess where
  notification : Notification
  deviceToken : String
deriving DecidableEq, Repr

/-- The failure object `_handleServerResponse` builds and throws: the
parsed (or substituted) reason, the response statusCode and the
original notification (src/lib/apns.ts lines 244-258). -/
structure ErrorJson where
  reason : String
  statusCode : JSVal
  notification : Notification
deriving DecidableEq, Repr

/-- One `this.emit(key, payload)` call observed during response
handling. -/
structure EmittedEvent where
  key : String
  payload : ErrorJson
deriving DecidableEq, Repr

/-- src/lib/apns.ts lines 232-259, `_handleServerResponse`: a statusCode
strictly equal to the number 200 returns the success record; otherwise
the body is parsed (an unparsable body substitutes the unknown-error
sentinel), the statusCode and notification are attached, two events are
emitted (one keyed by the reason, one generic error event) and the
failure object is thrown. The emitted events are returned alongside the
outcome; a thrown failure is `Except.error`. -/
def handleServerResponse (res : ServerResponse) (deviceToken : String)
    (notification : Notification) :
    List EmittedEvent × Except ErrorJson SendSuccess :=
  if jsStrictEq res.statusCode (JSVal.num 200) then
    ([], Except.ok ⟨notification, deviceToken⟩)
  else
    let reason :=
      match res.body with
      | Body.json r => r
      | Body.malformed => Errors.unknownError
    let json : ErrorJson := ⟨reason, res.statusCode, notification⟩
    ([⟨json.reason, json⟩, ⟨Errors.error, json⟩], Except.error json)

/-- Claim C1: for every notification send whose gateway response has
status 200 — which, through the strict equality `res.statusCode === 200`
of src/lib/apns.ts line 237, means the statusCode value is the number
200 — `_handleServerResponse` returns a success outcome holding exactly
the original notification object and device identifier, unmutated, and
emits no events. As the claim notes, the statusCode `HTTP2Client.request`
produces is declared a string, and a string value "200" is not strictly
equal to the number 200, so it would be classified as a failure instead:
the last two conjuncts record that fact. -/
theorem handleServerResponse_status200 :
    ∀ (body : Body) (dt : String) (n : Notification),
    (handleServerResponse ⟨JSVal.num 200, body⟩ dt n).2 = Except.ok ⟨n, dt⟩ ∧
    (handleServerResponse ⟨JSVal.num 200, body⟩ dt n).1 = [] ∧
    jsStrictEq (JSVal.str "200") (JSVal.num 200) = false ∧
    (∃ e, (handleServerResponse ⟨JSVal.str "200", body⟩ dt n).2 = Except.error e) := by
  intro body dt n
  have h200 : jsStrictEq (JSVal.num 200) (JSVal.num 200) = true := by decide
  have hs : jsStrictEq (JSVal.str "200") (JSVal.num 200) = false := by decide
  refine ⟨?_, ?_, hs, ?_⟩
  · simp [handleServerResponse, h200]
  · simp [handleServerResponse, h200]
  · cases body with
    | json r =>
        exact ⟨⟨r, JSVal.str "200", n⟩, by simp [handleServerResponse, hs]⟩
    | malformed =>
        exact ⟨⟨Errors.unknownError, JSVal.str "200", n⟩,
          by simp [handleServerResponse, hs]⟩

/-- Claim C10: a completed request stream whose response headers carry
no `:status` value resolves to the string statusCode "400"
(src/lib/http2-client.ts line 156), and such a response is classified
by `_handleServerResponse` as a failure (it is thrown), never as a
success. -/
theorem request_missing_status_400 :
    resolveStatusCode HeaderStatus.absent = JSVal.str "400" ∧
    ∀ (body : Body) (dt : String) (n : Notification),
    ∃ e, (handleServerResponse ⟨resolveStatusCode HeaderStatus.absent, body⟩ dt n).2
        = Except.error e ∧ e.statusCode = JSVal.str "400" := by
  refine ⟨rfl, ?_⟩
  intro body dt n
  have hs : jsStrictEq (JSVal.str "400") (JSVal.num 200) = false := by decide
  cases body with
  | json r =>
      exact ⟨⟨r, JSVal.str "400", n⟩,
        by simp [resolveStatusCode, handleServerResponse, hs], rfl⟩
  | malformed =>
      exact ⟨⟨Errors.unknownError, JSVal.str "400", n⟩,
        by simp [resolveStatusCode, handleServerResponse, hs], rfl⟩

/-- Claim C4: for every gateway response with non-200 status (the
strict comparison with the number 200 fails) whose body parses as JSON
with a string reason, the single-send path throws the failure object
whose reason is the body reason, whose statusCode is the response
status and which carries the original notification; before throwing it
emits exactly two events, one keyed by that reason and one generic
error event, each carrying that same failure object. -/
theorem handleServerResponse_non200_json :
    ∀ (sc : JSVal) (r : String) (dt : String) (n : Notification),
    jsStrictEq sc (JSVal.num 200) = false →
    (handleServerResponse ⟨sc, Body.json r⟩ dt n).2 = Except.error ⟨r, sc, n⟩ ∧
    (handleServerResponse ⟨sc, Body.json r⟩ dt n).1
      = [⟨r, ⟨r, sc, n⟩⟩, ⟨Errors.error, ⟨r, sc, n⟩⟩] ∧
    (handleServerResponse ⟨sc, Body.json r⟩ dt n).1.length = 2 := by
  intro sc r dt n h
  refine ⟨?_, ?_, ?_⟩ <;> simp [handleServerResponse, h]

/-- Witness for claim C4 at the spec scenario: a 410 response with body
reason "Unregistered" throws the augmented failure object and emits the
"Unregistered" event and the generic error event. -/
theorem handleServerResponse_non200_json_witness :
    (handleServerResponse ⟨JSVal.num 410, Body.json "Unregistered"⟩ "abc123"
        ⟨"abc123", "alert", 10, none, none, none, "p"⟩).2
      = Except.error ⟨"Unregistered", JSVal.num 410,
          ⟨"abc123", "alert", 10, none, none, none, "p"⟩⟩ ∧
    (handleServerResponse ⟨JSVal.num 410, Body.json "Unregistered"⟩ "abc123"
        ⟨"abc123", "alert", 10, none, none, none, "p"⟩).1
      = [⟨"Unregistered", ⟨"Unregistered", JSVal.num 410,
            ⟨"abc123", "alert", 10, none, none, none, "p"⟩⟩⟩,
         ⟨Errors.error, ⟨"Unregistered", JSVal.num 410,
            ⟨"abc123", "alert", 10, none, none, none, "p"⟩⟩⟩] ∧
    (handleServerResponse ⟨JSVal.num 410, Body.json "Unregistered"⟩ "abc123"
        ⟨"abc123", "alert", 10, none, none, none, "p"⟩).1.length = 2 :=
  handleServerResponse_non200_json (JSVal.num 410) "Unregistered" "abc123"
    ⟨"abc123", "alert", 10, none, none, none, "p"⟩ (by decide)

/-- Claim C5: for every gateway response with non-200 status whose body
fails to parse as JSON, the failure outcome thrown has the designated
unknown-error sentinel as its reason, with the HTTP status and the
original notification still attached. -/
theorem handleServerResponse_non200_malformed :
    ∀ (sc : JSVal) (dt : String) (n : Notification),
    jsStrictEq sc (JSVal.num 200) = false →
    (handleServerResponse ⟨sc, Body.malformed⟩ dt n).2
      = Except.error ⟨Errors.unknownError, sc, n⟩ := by
  intro sc dt n h
  simp [handleServerResponse, h]

/-- Witness for claim C5: a 500 response with an unparsable body throws
a failure whose reason is the unknown-error sentinel, carrying the
status and the notification. -/
theorem handleServerResponse_non200_malformed_witness :
    (handleServerResponse ⟨JSVal.num 500, Body.malformed⟩ "abc123"
        ⟨"abc123", "alert", 10, none, none, none, "p"⟩).2
      = Except.error ⟨Errors.unknownError, JSVal.num 500,
          ⟨"abc123", "alert", 10, none, none, none, "p"⟩⟩ :=
  handleServerResponse_non200_malformed (JSVal.num 500) "abc123"
    ⟨"abc123", "alert", 10, none, none, none, "p"⟩ (by decide)

/-- The request headers `_sendOne` builds (src/lib/apns.ts lines
152-171): a field is `none` when the corresponding header key is not
set on the request. -/
structure RequestHeaders where
  authorization : String
  apnsPushType : String
  apnsPriority : ℕ
  apnsTopic : Option String
  apnsExpiration : Option ℚ
  apnsCollapseId : Option String
deriving DecidableEq, Repr

/-- src/lib/apns.ts lines 152-171: the header block of `_sendOne`.
The authorization header interpolates the signing token into a template
literal, so a null token renders as the string "null"; the topic falls
back to the default topic when the notification topic is falsy; the
expiration header is set only when the expiration is truthy (a Date is
always truthy, the number 0 is not) and for a Date carries
`getTime() / 1000`, a JavaScript float division with no rounding; the
collapse-id header is set only when the collapse id is truthy. -/
def buildHeaders (token : Option String) (defaultTopic : Option String)
    (n : Notification) : RequestHeaders :=
  { authorization := "bearer " ++ (match token with
      | some t => t
      | none => "null")
    apnsPushType := n.pushType
    apnsPriority := n.priority
    apnsTopic := (match n.topic with
      | some t => if t = "" then defaultTopic else some t
      | none => defaultTopic)
    apnsExpiration := (match n.expiration with
      | none => none
      | some (ExpirationVal.date ms) => some ((ms : ℚ) / 1000)
      | some (ExpirationVal.num q) => if q = 0 then none else some q)
    apnsCollapseId := (match n.collapseId with
      | some c => if c = "" then none else some c
      | none => none) }

/-- The observable steps of `_sendOne` in program order
(src/lib/apns.ts lines 173-178). -/
inductive SendStep where
  | acquireClient : SendStep
  | releaseClient : SendStep
  | postRequest : SendStep
  | classifyResponse : SendStep
deriving DecidableEq, Repr

/-- src/lib/apns.ts lines 151-179, `_sendOne`: builds the request
options, then in program order acquires a pooled client, releases it
back to the pool, posts the request on the (already released) client,
and classifies the response. The first component is the step trace in
that program order; the response the transport will deliver and the
token the token manager returns are parameters. -/
def sendOne (encode : String → String) (token : Option String)
    (defaultTopic : Option String) (resp : ServerResponse)
    (deviceToken : String) (n : Notification) :
    List SendStep × (String × RequestHeaders) ×
      (List EmittedEvent × Except ErrorJson SendSuccess) :=
  ([SendStep.acquireClient, SendStep.releaseClient, SendStep.postRequest,
    SendStep.classifyResponse],
   ("/3/device/" ++ encode deviceToken, buildHeaders token defaultTopic n),
   handleServerResponse resp deviceToken n)

/-- Counterexample to claim C2: on a concrete send, the step trace of
`_sendOne` has the release of the pooled client at position 1 and the
posting of the request at position 2, so the request is not issued
before the session is released — the claimed order
acquire, post, release does not occur. -/
theorem sendOne_release_before_post_cex :
    (sendOne id none none ⟨JSVal.num 200, Body.malformed⟩ "d"
        ⟨"d", "alert", 10, none, none, none, "p"⟩).1.findIdx
        (fun x => decide (x = SendStep.releaseClient)) = 1 ∧
    (sendOne id none none ⟨JSVal.num 200, Body.malformed⟩ "d"
        ⟨"d", "alert", 10, none, none, none, "p"⟩).1.findIdx
        (fun x => decide (x = SendStep.postRequest)) = 2 ∧
    ¬ ((sendOne id none none ⟨JSVal.num 200, Body.malformed⟩ "d"
        ⟨"d", "alert", 10, none, none, none, "p"⟩).1.findIdx
        (fun x => decide (x = SendStep.postRequest)) <
       (sendOne id none none ⟨JSVal.num 200, Body.malformed⟩ "d"
        ⟨"d", "alert", 10, none, none, none, "p"⟩).1.findIdx
        (fun x => decide (x = SendStep.releaseClient))) := by
  refine ⟨rfl, rfl, ?_⟩
  decide

/-- Claim C2 as amended: in `_sendOne` the pooled session is acquired,
then released back to the pool, and only after that is the request
issued and the response classified — the session is not held while the
request is issued. -/
theorem sendOne_step_order :
    ∀ (encode : String → String) (token : Option String)
      (defaultTopic : Option String) (resp : ServerResponse)
      (dt : String) (n : Notification),
    (sendOne encode token defaultTopic resp dt n).1.findIdx
        (fun x => decide (x = SendStep.acquireClient)) <
      (sendOne encode token defaultTopic resp dt n).1.findIdx
        (fun x => decide (x = SendStep.releaseClient)) ∧
    (sendOne encode token defaultTopic resp dt n).1.findIdx
        (fun x => decide (x = SendStep.releaseClient)) <
      (sendOne encode token defaultTopic resp dt n).1.findIdx
        (fun x => decide (x = SendStep.postRequest)) ∧
    (sendOne encode token defaultTopic resp dt n).1.findIdx
        (fun x => decide (x = SendStep.postRequest)) <
      (sendOne encode token defaultTopic resp dt n).1.findIdx
        (fun x => decide (x = SendStep.classifyResponse)) := by
  intro encode token defaultTopic resp dt n
  have htr : (sendOne encode token defaultTopic resp dt n).1
      = [SendStep.acquireClient, SendStep.releaseClient, SendStep.postRequest,
         SendStep.classifyResponse] := rfl
  rw [htr]
  exact ⟨by decide, by decide, by decide⟩

/-- Counterexample to claim C8: a notification whose expiration is a
Date at 1500 epoch milliseconds gets an apns-expiration header value of
1500 / 1000 = 3/2 — not an integer number of seconds at all, and in
particular not the whole-second conversion of that timestamp (neither
1 nor 2). -/
theorem buildHeaders_expiration_cex :
    (buildHeaders none none
        ⟨"d", "alert", 10, none, some (ExpirationVal.date 1500), none, "p"⟩).apnsExpiration
      = some ((1500 : ℚ) / 1000) ∧
    (¬ ∃ z : ℤ, (1500 : ℚ) / 1000 = (z : ℚ)) ∧
    (1500 : ℚ) / 1000 ≠ (1 : ℚ) ∧
    (1500 : ℚ) / 1000 ≠ (2 : ℚ) := by
  have h32 : (1500 : ℚ) / 1000 = 3 / 2 := by norm_num
  refine ⟨rfl, ?_, by norm_num, by norm_num⟩
  rintro ⟨z, hz⟩
  rw [h32] at hz
  have h3 : (3 : ℚ) = (z : ℚ) * 2 := by
    field_simp at hz
    linarith [hz]
  have h3z : (3 : ℤ) = z * 2 := by exact_mod_cast h3
  omega

/-- Claim C8 as amended: for every notification with a truthy
expiration the request carries an apns-expiration header; when the
expiration is a Date the value sent is exactly `getTime() / 1000` as an
unrounded quotient (an integer only when the millisecond timestamp is a
multiple of 1000), and when it is a nonzero number the value is that
number itself; no expiration yields no header. -/
theorem buildHeaders_expiration :
    ∀ (token : Option String) (defaultTopic : Option String) (n : Notification),
    (∀ ms : ℤ, n.expiration = some (ExpirationVal.date ms) →
      (buildHeaders token defaultTopic n).apnsExpiration = some ((ms : ℚ) / 1000)) ∧
    (∀ q : ℚ, q ≠ 0 → n.expiration = some (ExpirationVal.num q) →
      (buildHeaders token defaultTopic n).apnsExpiration = some q) ∧
    (n.expiration = none →
      (buildHeaders token defaultTopic n).apnsExpiration = none) := by
  intro token defaultTopic n
  refine ⟨?_, ?_, ?_⟩
  · intro ms h
    simp [buildHeaders, h]
  · intro q hq h
    simp [buildHeaders, h, hq]
  · intro h
    simp [buildHeaders, h]

/-- Witness for the amended claim C8: a Date expiration at 1500 epoch
milliseconds yields the exact quotient 1500 / 1000 as header value, and
a numeric expiration 30 is sent as-is. -/
theorem buildHeaders_expiration_witness :
    (buildHeaders none none
        ⟨"d", "alert", 10, none, some (ExpirationVal.date 1500), none, "p"⟩).apnsExpiration
      = some ((1500 : ℚ) / 1000) ∧
    (buildHeaders none none
        ⟨"d", "alert", 10, none, some (ExpirationVal.num 30), none, "p"⟩).apnsExpiration
      = some 30 :=
  ⟨(buildHeaders_expiration none none
      ⟨"d", "alert", 10, none, some (ExpirationVal.date 1500), none, "p"⟩).1 1500 rfl,
   (buildHeaders_expiration none none
      ⟨"d", "alert", 10, none, some (ExpirationVal.num 30), none, "p"⟩).2.1 30
      (by decide) rfl⟩

/-- One element of the aggregate a batch send resolves with: either the
success record a member send resolved with, or an object wrapping the
value that member send rejected with (src/lib/apns.ts lines 112-113 and
129-130). -/
inductive BatchResult (ε : Type) where
  | success : SendSuccess → BatchResult ε
  | errorResult : ε → BatchResult ε
deriving DecidableEq, Repr

/-- The try/catch wrapper both batch senders put around one awaited
`_sendOne` call: a resolution becomes the success record, a rejection
becomes the wrapped error element (src/lib/apns.ts lines 110-114 and
127-131). The awaited single send is the parameter `send`, a function
of the device token and notification that either resolves or rejects. -/
def tryCatchSend {ε : Type} (send : String → Notification → Except ε SendSuccess)
    (deviceToken : String) (n : Notification) : BatchResult ε :=
  match send deviceToken n with
  | Except.ok r => BatchResult.success r
  | Except.error e => BatchResult.errorResult e

/-- src/lib/apns.ts lines 108-117, `sendMany`: maps every notification
to its independently wrapped send (using that notification and its own
device token) and joins them all. -/
def sendMany {ε : Type} (send : String → Notification → Except ε SendSuccess)
    (notifications : List Notification) : List (BatchResult ε) :=
  notifications.map fun n => tryCatchSend send n.deviceToken n

/-- src/lib/apns.ts lines 125-134, `sendToMany`: maps every device
token to its independently wrapped send of the one notification and
joins them all. -/
def sendToMany {ε : Type} (send : String → Notification → Except ε SendSuccess)
    (deviceTokens : List String) (n : Notification) : List (BatchResult ε) :=
  deviceTokens.map fun device => tryCatchSend send device n

/-- Claim C3: `sendMany` and `sendToMany` never reject — they are total
functions into a plain result list. The aggregate has the same length
as the input list; the element at each position is exactly the wrapped
outcome of that position's own member send (so one member's failure
cannot affect a sibling's result); and every element is either a
success record or an error record. -/
theorem sendBatch_never_rejects :
    ∀ {ε : Type} (send : String → Notification → Except ε SendSuccess)
      (ns : List Notification) (dts : List String) (n : Notification),
    (sendMany send ns).length = ns.length ∧
    (∀ i : ℕ, (sendMany send ns)[i]?
      = (ns[i]?).map fun m => tryCatchSend send m.deviceToken m) ∧
    (∀ b, b ∈ sendMany send ns →
      (∃ r, b = BatchResult.success r) ∨ (∃ e, b = BatchResult.errorResult e)) ∧
    (sendToMany send dts n).length = dts.length ∧
    (∀ i : ℕ, (sendToMany send dts n)[i]?
      = (dts[i]?).map fun device => tryCatchSend send device n) ∧
    (∀ b, b ∈ sendToMany send dts n →
      (∃ r, b = BatchResult.success r) ∨ (∃ e, b = BatchResult.errorResult e)) := by
  intro ε send ns dts n
  have hform : ∀ (dt : String) (m : Notification),
      (∃ r, tryCatchSend send dt m = BatchResult.success r) ∨
      (∃ e, tryCatchSend send dt m = BatchResult.errorResult e) := by
    intro dt m
    cases h : send dt m with
    | ok r => exact Or.inl ⟨r, by simp [tryCatchSend, h]⟩
    | error e => exact Or.inr ⟨e, by simp [tryCatchSend, h]⟩
  refine ⟨by simp [sendMany], ?_, ?_, by simp [sendToMany], ?_, ?_⟩
  · intro i
    simp [sendMany, List.getElem?_map]
  · intro b hb
    rcases List.mem_map.1 hb with ⟨m, _, rfl⟩
    exact hform m.deviceToken m
  · intro i
    simp [sendToMany, List.getElem?_map]
  · intro b hb
    rcases List.mem_map.1 hb with ⟨device, _, rfl⟩
    exact hform device n

/-- Witness for claim C3: a batch of one notification whose send
rejects yields a one-element aggregate whose only element is the
wrapped error record. -/
theorem sendBatch_never_rejects_witness :
    BatchResult.errorResult "boom"
      ∈ sendMany (ε := String) (fun _ _ => Except.error "boom")
        [⟨"d", "alert", 10, none, none, none, "p"⟩] ∧
    ((∃ r, (BatchResult.errorResult (ε := String) "boom") = BatchResult.success r) ∨
     (∃ e, (BatchResult.errorResult (ε := String) "boom") = BatchResult.errorResult e)) :=
  ⟨by simp [sendMany, tryCatchSend],
   (sendBatch_never_rejects (fun _ _ => Except.error "boom")
      [⟨"d", "alert", 10, none, none, none, "p"⟩] [] ⟨"d", "alert", 10, none, none, none, "p"⟩).2.2.1
      (BatchResult.errorResult "boom") (by simp [sendMany, tryCatchSend])⟩

/-- The constructor-time signing configuration the token manager reads
(src/lib/apns.ts lines 84-87). -/
structure APNSConfig where
  team : String
  keyId : String
  signingKey : String
deriving DecidableEq, Repr

/-- src/lib/apns.ts line 41: the signing algorithm constant. -/
def SIGNING_ALGORITHM : String := "ES256"

/-- The signed token `jwt.sign(claims, key, options)` produces,
identified by everything the call feeds the signer: the issuer claim,
the issue time, the algorithm and key id of the header, and the signing
key (src/lib/apns.ts lines 271-289). -/
structure SignedToken where
  iss : String
  iat : ℕ
  alg : String
  kid : String
  signedWith : String
deriving DecidableEq, Repr

/-- The mutable token-manager state: the cached token (`this._token`)
and the current clock reading the next `jwt.sign` call would stamp into
the `iat` claim. -/
structure TokenState where
  token : Option SignedToken
  now : ℕ
deriving DecidableEq, Repr

/-- The token `jwt.sign` produces at a given clock reading for a given
configuration (src/lib/apns.ts lines 271-289): issuer from the team,
issue time from the clock, and the ES256 header carrying the key id;
signed with the configured signing key. -/
def signToken (cfg : APNSConfig) (now : ℕ) : SignedToken :=
  ⟨cfg.team, now, SIGNING_ALGORITHM, cfg.keyId, cfg.signingKey⟩

/-- src/lib/apns.ts lines 266-298, `_getSigningToken`: returns the
cached token when one exists; otherwise signs a new token and stores it
in the cache. Whether `jwt.sign` throws is the external parameter
`signOk`; when it throws, the cache is written with null, the
invalid-signing-key event is emitted, and null is returned instead of
the exception escaping. The result is (returned token, new state,
emitted event keys). -/
def getSigningToken (cfg : APNSConfig) (signOk : Bool) (s : TokenState) :
    Option SignedToken × TokenState × List String :=
  match s.token with
  | some t => (some t, s, [])
  | none =>
    if signOk then
      (some (signToken cfg s.now), { s with token := some (signToken cfg s.now) }, [])
    else
      (none, { s with token := none }, [Errors.invalidSigningKey])

/-- src/lib/apns.ts lines 304-307, `_resetSigningToken`: clears the
cached token and immediately re-signs via `_getSigningToken`. -/
def resetSigningToken (cfg : APNSConfig) (signOk : Bool) (s : TokenState) :
    Option SignedToken × TokenState × List String :=
  getSigningToken cfg signOk { s with token := none }

/-- src/lib/apns.ts line 91: the constructor subscribes
`_resetSigningToken` to the ExpiredProviderToken event, so the state
after that event fires is the state `_resetSigningToken` leaves. -/
def fireExpiredProviderToken (cfg : APNSConfig) (signOk : Bool)
    (s : TokenState) : TokenState :=
  (resetSigningToken cfg signOk s).2.1

/-- Claim C6: `_getSigningToken` returns the cached token whenever one
exists, unchanged state and no events (no re-signing, whatever the
signer would do); otherwise it signs a new token from the team, key id,
signing key and ES256 algorithm and caches it; and if signing throws it
returns null, leaves no token cached, and emits the invalid-signing-key
event instead of propagating the exception (the function is total, so
no exception escapes). -/
theorem getSigningToken_spec :
    ∀ (cfg : APNSConfig) (signOk : Bool) (s : TokenState),
    (∀ t, s.token = some t → getSigningToken cfg signOk s = (some t, s, [])) ∧
    (s.token = none → signOk = true →
      getSigningToken cfg signOk s
        = (some (signToken cfg s.now),
           { s with token := some (signToken cfg s.now) }, []) ∧
      (signToken cfg s.now).iss = cfg.team ∧
      (signToken cfg s.now).kid = cfg.keyId ∧
      (signToken cfg s.now).signedWith = cfg.signingKey ∧
      (signToken cfg s.now).alg = SIGNING_ALGORITHM) ∧
    (s.token = none → signOk = false →
      getSigningToken cfg signOk s
        = (none, { s with token := none }, [Errors.invalidSigningKey])) := by
  intro cfg signOk s
  refine ⟨?_, ?_, ?_⟩
  · intro t h
    simp [getSigningToken, h]
  · intro h hok
    subst hok
    exact ⟨by simp [getSigningToken, h], rfl, rfl, rfl, rfl⟩
  · intro h hko
    subst hko
    simp [getSigningToken, h]

/-- Witness for claim C6: from an empty cache with a failing signer,
`_getSigningToken` returns null, caches nothing and emits the
invalid-signing-key event. -/
theorem getSigningToken_spec_witness :
    getSigningToken ⟨"T1", "K1", "key"⟩ false ⟨none, 7⟩
      = (none, { token := none, now := 7 }, [Errors.invalidSigningKey]) :=
  (getSigningToken_spec ⟨"T1", "K1", "key"⟩ false ⟨none, 7⟩).2.2 rfl rfl

/-- Claim C7: after the ExpiredProviderToken event fires (its handler,
registered by the constructor, runs `_resetSigningToken`), the
previously cached token is discarded — even when re-signing fails the
cache holds no token — and when re-signing succeeds the next
`_getSigningToken` call, at any later clock reading, returns the token
signed at the event (issue time equal to the event clock), which is
distinct from any token cached strictly before the event. -/
theorem expiredProviderToken_fresh_token :
    ∀ (cfg : APNSConfig) (s : TokenState) (t0 : SignedToken),
    s.token = some t0 → t0.iat < s.now →
    (fireExpiredProviderToken cfg true s).token = some (signToken cfg s.now) ∧
    (fireExpiredProviderToken cfg false s).token = none ∧
    (∀ later : ℕ,
      (getSigningToken cfg true
          { fireExpiredProviderToken cfg true s with now := later }).1
        = some (signToken cfg s.now)) ∧
    (signToken cfg s.now).iat = s.now ∧
    signToken cfg s.now ≠ t0 := by
  intro cfg s t0 _h hlt
  refine ⟨?_, ?_, ?_, rfl, ?_⟩
  · simp [fireExpiredProviderToken, resetSigningToken, getSigningToken]
  · simp [fireExpiredProviderToken, resetSigningToken, getSigningToken]
  · intro later
    simp [fireExpiredProviderToken, resetSigningToken, getSigningToken]
  · intro heq
    have : (signToken cfg s.now).iat = t0.iat := by rw [heq]
    simp [signToken] at this
    omega

/-- Witness for claim C7: with a token signed at time 0 cached and the
event firing at time 5, the next `_getSigningToken` call (at the even
later time 9) returns the token signed at time 5, not the stale one. -/
theorem expiredProviderToken_fresh_token_witness :
    (fireExpiredProviderToken ⟨"T1", "K1", "key"⟩ true
        ⟨some (signToken ⟨"T1", "K1", "key"⟩ 0), 5⟩).token
      = some (signToken ⟨"T1", "K1", "key"⟩ 5) ∧
    (getSigningToken ⟨"T1", "K1", "key"⟩ true
        { fireExpiredProviderToken ⟨"T1", "K1", "key"⟩ true
            ⟨some (signToken ⟨"T1", "K1", "key"⟩ 0), 5⟩ with now := 9 }).1
      = some (signToken ⟨"T1", "K1", "key"⟩ 5) ∧
    signToken ⟨"T1", "K1", "key"⟩ 5 ≠ signToken ⟨"T1", "K1", "key"⟩ 0 :=
  ⟨(expiredProviderToken_fresh_token ⟨"T1", "K1", "key"⟩
      ⟨some (signToken ⟨"T1", "K1", "key"⟩ 0), 5⟩
      (signToken ⟨"T1", "K1", "key"⟩ 0) rfl (by decide)).1,
   (expiredProviderToken_fresh_token ⟨"T1", "K1", "key"⟩
      ⟨some (signToken ⟨"T1", "K1", "key"⟩ 0), 5⟩
      (signToken ⟨"T1", "K1", "key"⟩ 0) rfl (by decide)).2.2.1 9,
   (expiredProviderToken_fresh_token ⟨"T1", "K1", "key"⟩
      ⟨some (signToken ⟨"T1", "K1", "key"⟩ 0), 5⟩
      (signToken ⟨"T1", "K1", "key"⟩ 0) rfl (by decide)).2.2.2.2⟩

/-- The underlying http2 session handle as far as `HTTP2Client`
inspects it: only its destroyed flag. -/
structure SessionHandle where
  destroyed : Bool
deriving DecidableEq, Repr

/-- The mutable fields of `HTTP2Client` (src/lib/http2-client.ts lines
35-36): the readiness flag and the optional session handle. -/
structure ClientState where
  readyFlag : Bool
  sessionHandle : Option SessionHandle
deriving DecidableEq, Repr

/-- src/lib/http2-client.ts lines 52-54, the `ready` getter:
`this._ready && this._session && !this._session.destroyed`, truthy
exactly when the flag is set, a handle is installed and it is not
destroyed. -/
def clientReady (c : ClientState) : Bool :=
  c.readyFlag && (match c.sessionHandle with
    | some s => !s.destroyed
    | none => false)

/-- src/lib/http2-client.ts lines 45-46: the constructor starts with
the flag false and no session handle. -/
def clientInitial : ClientState :=
  ⟨false, none⟩

/-- src/lib/http2-client.ts lines 82-88, `destroy`: tears down the
underlying session if one exists and is not already destroyed, then
unconditionally clears the flag and the handle. The second component
records whether the underlying teardown was actually invoked. -/
def clientDestroy (c : ClientState) : ClientState × Bool :=
  (⟨false, none⟩,
   match c.sessionHandle with
   | some s => !s.destroyed
   | none => false)

/-- src/lib/http2-client.ts lines 181-189, `_connected`: installs the
session handle and sets the readiness flag (the terminal-event handlers
it registers are modelled as the terminal-event operation below). -/
def clientConnected (c : ClientState) (s : SessionHandle) : ClientState :=
  { c with readyFlag := true, sessionHandle := some s }

/-- The operations that mutate a `HTTP2Client` after construction: an
explicit `destroy()` call, a successful connect installing a handle,
and any terminal transport event (close, frameError, goaway,
socketError, timeout), each of whose registered handlers just calls
`destroy()` (src/lib/http2-client.ts lines 182-186). -/
inductive ClientOp where
  | destroyOp : ClientOp
  | connectedOp : SessionHandle → ClientOp
  | terminalEvent : ClientOp
deriving DecidableEq, Repr

/-- One operation applied to the client state. -/
def clientStep (c : ClientState) : ClientOp → ClientState
  | ClientOp.destroyOp => (clientDestroy c).1
  | ClientOp.terminalEvent => (clientDestroy c).1
  | ClientOp.connectedOp s => clientConnected c s

/-- The client state after a sequence of operations from construction. -/
def clientRun (ops : List ClientOp) : ClientState :=
  ops.foldl clientStep clientInitial

/-- Claim C9: the `ready` invariant of `HTTP2Client` holds after every
operation — `ready` is true only while a session handle is installed
and not destroyed; the constructor leaves `ready` false with no handle;
`destroy` always leaves `ready` false with the handle cleared, is
idempotent, and on the second call does not invoke the underlying
teardown again; `_connected` installs the handle and sets the flag,
making `ready` true for a live handle; and over any operation sequence
from construction, `ready` can only be true immediately after a
successful connect whose handle is not destroyed. -/
theorem http2client_ready_invariant :
    (clientReady clientInitial = false ∧ clientInitial.sessionHandle = none) ∧
    (∀ c, clientReady (clientDestroy c).1 = false ∧
      (clientDestroy c).1.sessionHandle = none ∧
      (clientDestroy (clientDestroy c).1).1 = (clientDestroy c).1 ∧
      (clientDestroy (clientDestroy c).1).2 = false) ∧
    (∀ c s, (clientConnected c s).sessionHandle = some s ∧
      (clientConnected c s).readyFlag = true ∧
      (s.destroyed = false → clientReady (clientConnected c s) = true)) ∧
    (∀ c, clientReady c = true →
      ∃ s, c.sessionHandle = some s ∧ s.destroyed = false) ∧
    (∀ ops, clientReady (clientRun ops) = true →
      ∃ pre s, ops = pre ++ [ClientOp.connectedOp s] ∧ s.destroyed = false) := by
  refine ⟨⟨rfl, rfl⟩, ?_, ?_, ?_, ?_⟩
  · intro c
    exact ⟨rfl, rfl, rfl, rfl⟩
  · intro c s
    refine ⟨rfl, rfl, ?_⟩
    intro h
    simp [clientReady, clientConnected, h]
  · intro c h
    rcases hs : c.sessionHandle with _ | s
    · simp [clientReady, hs] at h
    · refine ⟨s, rfl, ?_⟩
      simp [clientReady, hs] at h
      simpa using h.2
  · intro ops
    induction ops using List.reverseRecOn with
    | nil =>
        intro h
        simp [clientRun, clientInitial, clientReady] at h
    | append_singleton pre op _ih =>
        intro h
        rw [clientRun, List.foldl_append] at h
        cases op with
        | destroyOp =>
            simp [clientStep, clientDestroy, clientReady] at h
        | terminalEvent =>
            simp [clientStep, clientDestroy, clientReady] at h
        | connectedOp s =>
            refine ⟨pre, s, rfl, ?_⟩
            simp [clientStep, clientConnected, clientReady] at h
            exact h

/-- Witness for claim C9: connecting with a live handle straight after
construction makes `ready` true, and that operation sequence indeed
ends in a successful connect of a non-destroyed handle. -/
theorem http2client_ready_invariant_witness :
    clientReady (clientRun [ClientOp.connectedOp ⟨false⟩]) = true ∧
    (∃ pre s, [ClientOp.connectedOp ⟨false⟩]
        = pre ++ [ClientOp.connectedOp s] ∧ s.destroyed = false) :=
  ⟨by decide,
   http2client_ready_invariant.2.2.2.2 [ClientOp.connectedOp ⟨false⟩] (by decide)⟩

end Apns
